import Mathlib

/-!
Verification of the staleness-detection core of plasmasaver
(src/plasmasaver.c): the per-pixel diff/aging/promotion engine, the
pointer-clear disk, the resize branch and the bar-motion step, as a
shallow embedding. Grids are modelled as functions from coordinates,
matching the stride-indexed byte buffers of the C code pointwise;
8-bit age arithmetic is kept explicit as arithmetic modulo 256.
-/

set_option autoImplicit false

namespace Plasmasaver

/-- Number of pixels that the bar moves at once (src/plasmasaver.c:32). -/
def BAR_PIXEL_INCREMENT : Nat := 10

/-- Maximum allowed pixel age before anti-IR is engaged, in capture
periods (src/plasmasaver.c:38). -/
def MAX_AGE : Nat := 150

/-- Radius of the circle around the pointer that cleans the anti-IR
pattern, in pixels (src/plasmasaver.c:43). -/
def POINTER_CLEANING_RADIUS : Int := 100

/-- The amount by which a colour component must change to be considered
not static (src/plasmasaver.c:46). -/
def MIN_CHANGE_THRESHOLD : Nat := 2

/-- The i-th 8-bit colour channel of a packed 32-bit pixel value: the
diff loop at src/plasmasaver.c:203-210 reads `pix & 0xFF` after shifting
the pixel right by 8 bits i times. -/
def chan (i p : Nat) : Nat := (p >>> (8 * i)) % 256

/-- Absolute difference of channel i between two packed pixel values,
computed in signed arithmetic as in src/plasmasaver.c:204. -/
def chanDiff (i c l : Nat) : Nat := ((chan i c : Int) - (chan i l : Int)).natAbs

/-- Pixel classification of src/plasmasaver.c:202-210: the pixel counts
as changed when any of the three colour channels (bytes 0, 1, 2; the
fourth byte is padding and ignored) differs by at least the threshold. -/
def different (thr c l : Nat) : Bool :=
  decide (thr ≤ chanDiff 0 c l) || decide (thr ≤ chanDiff 1 c l) ||
    decide (thr ≤ chanDiff 2 c l)

/-- Per-session state: the dimensions, the age map (format A8, one byte
per pixel), the stale mask (format A1, one bit per pixel, abstracted to
a boolean per pixel), the previous capture (packed 32-bit RGB24 pixels)
and the bar position — the dynamically initialized fields of struct
data_t (src/plasmasaver.c:53-73). -/
structure Session where
  width : Nat
  height : Nat
  ages : Nat → Nat → Nat
  mask : Nat → Nat → Bool
  lastCapture : Nat → Nat → Nat
  bar_x : Nat

/-- The body of the diff loop for one pixel (src/plasmasaver.c:193-220):
an already-masked pixel is skipped untouched; a changed pixel gets age
0; an unchanged pixel ages by one in unsigned-char arithmetic and is
promoted into the mask when the incremented age reaches maxAge, its age
being reset to 0 in the same step. Returns (new mask bit, new age). -/
def diffPixel (thr maxAge : Nat) (m : Bool) (age c l : Nat) : Bool × Nat :=
  if m then (m, age)
  else if different thr c l then (m, 0)
  else if maxAge ≤ (age + 1) % 256 then (true, 0)
  else (false, (age + 1) % 256)

/-- One capture/diff tick: the state change of on_screen_capture_timer
(src/plasmasaver.c:160-240) given the freshly captured frame cap. Every
in-bounds pixel is processed by diffPixel against the previous capture,
and cap becomes the previous capture for the next tick (the double
buffering via capture_index at src/plasmasaver.c:165-168). -/
def diffTick (thr maxAge : Nat) (cap : Nat → Nat → Nat) (s : Session) : Session :=
  { s with
    ages := fun x y =>
      if x < s.width ∧ y < s.height then
        (diffPixel thr maxAge (s.mask x y) (s.ages x y) (cap x y) (s.lastCapture x y)).2
      else s.ages x y,
    mask := fun x y =>
      if x < s.width ∧ y < s.height then
        (diffPixel thr maxAge (s.mask x y) (s.ages x y) (cap x y) (s.lastCapture x y)).1
      else s.mask x y,
    lastCapture := cap }

/-- Membership of the pixel (x, y) in the closed disk of radius r
centred at (cx, cy). -/
def inCircle (cx cy r : Int) (x y : Nat) : Bool :=
  decide (((x : Int) - cx) ^ 2 + ((y : Int) - cy) ^ 2 ≤ r ^ 2)

/-- Modelled from the spec: the combined effect on the age map and the
stale mask of the three clear_arc calls (src/plasmasaver.c:242-250,
called at 271-273). The CLEAR-filled arc of the rendering library is
embedded, following the spec's pointer-clear contract, as the ideal
closed disk clipped to the buffer bounds: inside it ages become 0 and
mask bits unset, outside it nothing changes. -/
def clear_arc (cx cy r : Int) (s : Session) : Session :=
  { s with
    ages := fun x y =>
      if x < s.width ∧ y < s.height ∧ inCircle cx cy r x y then 0
      else s.ages x y,
    mask := fun x y =>
      if x < s.width ∧ y < s.height ∧ inCircle cx cy r x y then false
      else s.mask x y }

/-- Modelled from the spec: a freshly (re)initialized session as built
by the initialization branch of on_draw (src/plasmasaver.c:104-135).
The image surfaces are created zero-filled, so all ages are 0, all mask
bits unset and the previous capture is all zero. -/
def freshSession (w h bx : Nat) : Session :=
  { width := w, height := h, ages := fun _ _ => 0, mask := fun _ _ => false,
    lastCapture := fun _ _ => 0, bar_x := bx }

/-- Bar position rescaling on resize (src/plasmasaver.c:130):
`bar_x * width / data->width` in C unsigned (truncating) division. -/
def resizeBarX (old_pos old_w new_w : Nat) : Nat := old_pos * new_w / old_w

/-- The reinitialization branch of on_draw for an already-active session
whose dimensions changed (src/plasmasaver.c:104-136): all buffers are
recreated zero-filled at the new size and bar_x is rescaled. -/
def onResize (s : Session) (w h : Nat) : Session :=
  freshSession w h (resizeBarX s.bar_x s.width w)

/-- What the spec's resize property states the new bar position to be:
the rounding of the exact rational old_pos * new_width / old_width.
Stated from the spec's words, for comparison against resizeBarX. -/
def specBarResize (old_pos old_w new_w : Nat) : Int :=
  round ((old_pos * new_w : ℚ) / old_w)

/-- The animation tick on_draw_timer (src/plasmasaver.c:88-94): advance
bar_x by BAR_PIXEL_INCREMENT modulo the width. -/
def on_draw_timer (s : Session) : Session :=
  { s with bar_x := (s.bar_x + BAR_PIXEL_INCREMENT) % s.width }

/-- The top-level daemon state seen by the timer handlers: the
initialized flag, the per-session state and the last observed pointer
position (struct data_t, src/plasmasaver.c:53-73). -/
structure data_t where
  initialized : Bool
  session : Session
  pointer_x : Int
  pointer_y : Int

/-- on_screen_capture_timer (src/plasmasaver.c:160-240): when the
session is not initialized the handler returns TRUE at once without
touching any per-session state; otherwise it runs one diff tick against
the captured frame. The returned boolean is the keep-the-timer flag. -/
def on_screen_capture_timer (thr maxAge : Nat) (cap : Nat → Nat → Nat)
    (d : data_t) : data_t × Bool :=
  if d.initialized then
    ({ d with session := diffTick thr maxAge cap d.session }, true)
  else (d, true)

/-- on_mouse_poll_timer (src/plasmasaver.c:252-276): when the session is
not initialized, return TRUE at once; when the polled pointer position
equals the stored one, a no-op; otherwise store the new position and
clear the disk of radius POINTER_CLEANING_RADIUS around it from the
stale mask and the age map. -/
def on_mouse_poll_timer (x y : Int) (d : data_t) : data_t × Bool :=
  if d.initialized then
    if d.pointer_x = x ∧ d.pointer_y = y then (d, true)
    else
      ({ d with
          pointer_x := x, pointer_y := y,
          session := clear_arc x y POINTER_CLEANING_RADIUS d.session }, true)
  else (d, true)

/-- The running invariant relating the two per-pixel buffers: every
masked pixel has age 0. -/
def maskAgeInv (s : Session) : Prop :=
  ∀ x y, s.mask x y = true → s.ages x y = 0

/-- A perfectly still capture for the end-to-end scenario: every pixel
equal to the zero-filled initial capture buffer. -/
def scenarioCapStill : Nat → Nat → Nat := fun _ _ => 0

/-- The fourth capture of the end-to-end scenario: it differs by 5 in
one colour channel at the single pixel (60, 5). -/
def scenarioCapMoved : Nat → Nat → Nat := fun x y => if x = 60 ∧ y = 5 then 5 else 0

/-- The session after feeding three identical captures to a fresh
100 by 10 session with threshold 2 and max age 3. -/
def scenarioAfter3 : Session :=
  diffTick 2 3 scenarioCapStill (diffTick 2 3 scenarioCapStill
    (diffTick 2 3 scenarioCapStill (freshSession 100 10 0)))

/-- The scenario session after the fourth, locally differing capture. -/
def scenarioAfter4 : Session := diffTick 2 3 scenarioCapMoved scenarioAfter3

/-- A 4 by 4 session whose stale mask is fully set, for witnessing mask
monotonicity. -/
def maskedDemo : Session :=
  { freshSession 4 4 0 with mask := fun _ _ => true }

/-- A 4 by 4 session with nonzero ages and a fully set mask, for
witnessing the pointer-clear properties. -/
def clearDemo : Session :=
  { freshSession 4 4 0 with ages := fun _ _ => 7, mask := fun _ _ => true }

/-- An uninitialized daemon state, for witnessing the handler guards. -/
def uninitDemo : data_t :=
  { initialized := false, session := freshSession 2 2 0,
    pointer_x := 0, pointer_y := 0 }

/-- The changed classification holds exactly when one of the three
channels moves by at least the threshold. -/
lemma different_iff (thr c l : Nat) :
    different thr c l = true ↔ ∃ i, i < 3 ∧ thr ≤ chanDiff i c l := by
  simp only [different, Bool.or_eq_true, decide_eq_true_eq]
  constructor
  · rintro ((h | h) | h)
    exacts [⟨0, by omega, h⟩, ⟨1, by omega, h⟩, ⟨2, by omega, h⟩]
  · rintro ⟨i, hi, h⟩
    interval_cases i
    · exact Or.inl (Or.inl h)
    · exact Or.inl (Or.inr h)
    · exact Or.inr h

/-- C1: on a capture/diff tick, an in-bounds pixel that is classified
unchanged, is not already masked and has age below MAX_AGE gets its age
incremented by exactly 1; when the incremented age reaches MAX_AGE the
age is instead reset to 0 in that same tick, and the mask bit ends the
tick set exactly in that case. -/
theorem C1_unchanged_pixel_aging (thr : Nat) (cap : Nat → Nat → Nat) (s : Session)
    (x y : Nat) (hx : x < s.width) (hy : y < s.height)
    (hm : s.mask x y = false)
    (hd : different thr (cap x y) (s.lastCapture x y) = false)
    (ha : s.ages x y < MAX_AGE) :
    ((diffTick thr MAX_AGE cap s).ages x y =
      if s.ages x y + 1 = MAX_AGE then 0 else s.ages x y + 1) ∧
    ((diffTick thr MAX_AGE cap s).mask x y = true ↔ s.ages x y + 1 = MAX_AGE) := by
  have h256 : (s.ages x y + 1) % 256 = s.ages x y + 1 := by
    have : s.ages x y < 150 := ha
    omega
  simp only [diffTick, if_pos (And.intro hx hy), diffPixel, hm, hd, h256,
    Bool.false_eq_true, if_false]
  by_cases hc : s.ages x y + 1 = MAX_AGE
  · have : MAX_AGE ≤ s.ages x y + 1 := le_of_eq hc.symm
    simp [this, hc]
  · have : ¬ MAX_AGE ≤ s.ages x y + 1 := by
      have : s.ages x y < 150 := ha
      unfold MAX_AGE at *
      omega
    simp [this, hc]

/-- C1 witness: a fresh 4 by 4 session under a still capture at pixel
(0, 0). -/
theorem C1_unchanged_pixel_aging_witness :
    ((diffTick 2 MAX_AGE (fun _ _ => 0) (freshSession 4 4 0)).ages 0 0 =
      if (freshSession 4 4 0).ages 0 0 + 1 = MAX_AGE then 0
      else (freshSession 4 4 0).ages 0 0 + 1) ∧
    ((diffTick 2 MAX_AGE (fun _ _ => 0) (freshSession 4 4 0)).mask 0 0 = true ↔
      (freshSession 4 4 0).ages 0 0 + 1 = MAX_AGE) :=
  C1_unchanged_pixel_aging 2 (fun _ _ => 0) (freshSession 4 4 0) 0 0
    (by decide) (by decide) rfl (by decide) (by decide)

/-- C2: a set mask bit survives any diff tick; it survives a pointer
clear whose disk does not contain the pixel; and it is unset by a
pointer clear whose disk does contain the in-bounds pixel. -/
theorem C2_mask_monotone (thr maxAge : Nat) (cap : Nat → Nat → Nat) (s : Session)
    (x y : Nat) (cx cy r : Int) (hm : s.mask x y = true) :
    (diffTick thr maxAge cap s).mask x y = true ∧
    (inCircle cx cy r x y = false → (clear_arc cx cy r s).mask x y = true) ∧
    (x < s.width → y < s.height → inCircle cx cy r x y = true →
      (clear_arc cx cy r s).mask x y = false) := by
  refine ⟨?_, ?_, ?_⟩
  · simp only [diffTick]
    by_cases hxy : x < s.width ∧ y < s.height
    · simp [hxy, diffPixel, hm]
    · simp [hxy, hm]
  · intro hc
    simp [clear_arc, hc, hm]
  · intro hx hy hc
    simp [clear_arc, hx, hy, hc]

/-- C2 witness: a fully masked 4 by 4 session; pixel (0, 0) keeps its
bit through a diff tick and a far-away clear, and loses it to a disk of
radius 2 at the origin. -/
theorem C2_mask_monotone_witness :
    (diffTick 2 150 (fun _ _ => 0) maskedDemo).mask 0 0 = true ∧
    (clear_arc 5 5 1 maskedDemo).mask 0 0 = true ∧
    (clear_arc 0 0 2 maskedDemo).mask 0 0 = false :=
  ⟨(C2_mask_monotone 2 150 (fun _ _ => 0) maskedDemo 0 0 5 5 1 rfl).1,
   (C2_mask_monotone 2 150 (fun _ _ => 0) maskedDemo 0 0 5 5 1 rfl).2.1 (by decide),
   (C2_mask_monotone 2 150 (fun _ _ => 0) maskedDemo 0 0 0 0 2 rfl).2.2
     (by decide) (by decide) (by decide)⟩

/-- C3: a pixel is classified changed iff some colour channel's absolute
difference is at least the threshold; with the default threshold 2, a
lone channel difference of exactly 1 (threshold minus one) is not
changed and of exactly 2 (the threshold) is. -/
theorem C3_changed_iff (thr c l : Nat) :
    (different thr c l = true ↔ ∃ i, i < 3 ∧ thr ≤ chanDiff i c l) ∧
    different MIN_CHANGE_THRESHOLD 1 0 = false ∧
    different MIN_CHANGE_THRESHOLD 2 0 = true :=
  ⟨different_iff thr c l, by decide, by decide⟩

/-- C4: on a diff tick, an in-bounds pixel some of whose channels differ
by at least the threshold between the two captures ends the tick with
age 0, given the running invariant that a masked pixel already has age
0. -/
theorem C4_changed_resets_age (thr maxAge : Nat) (cap : Nat → Nat → Nat)
    (s : Session) (x y : Nat) (hx : x < s.width) (hy : y < s.height)
    (hinv : s.mask x y = true → s.ages x y = 0)
    (hch : ∃ i, i < 3 ∧ thr ≤ chanDiff i (cap x y) (s.lastCapture x y)) :
    (diffTick thr maxAge cap s).ages x y = 0 := by
  have hd : different thr (cap x y) (s.lastCapture x y) = true :=
    (different_iff _ _ _).mpr hch
  simp only [diffTick, if_pos (And.intro hx hy)]
  by_cases hm : s.mask x y
  · simp [diffPixel, hm, hinv hm]
  · simp [diffPixel, hm, hd]

/-- C4 witness: a fresh 4 by 4 session diffed against a capture whose
channel 0 moved by 5 everywhere. -/
theorem C4_changed_resets_age_witness :
    (diffTick 2 150 (fun _ _ => 5) (freshSession 4 4 0)).ages 0 0 = 0 :=
  C4_changed_resets_age 2 150 (fun _ _ => 5) (freshSession 4 4 0) 0 0
    (by decide) (by decide) (fun h => absurd h (by decide))
    ⟨0, by omega, by decide⟩

/-- C5: end-to-end scenario at width 100, height 10, threshold 2 and
max age 3: after three identical captures the pixel (50, 5) has its
mask bit set and age 0; after a fourth capture differing by 5 in one
channel at pixel (60, 5), that pixel's age is 0 and the mask bit of
(50, 5) remains set. -/
theorem C5_end_to_end :
    scenarioAfter3.mask 50 5 = true ∧ scenarioAfter3.ages 50 5 = 0 ∧
    scenarioAfter4.ages 60 5 = 0 ∧ scenarioAfter4.mask 50 5 = true := by
  decide

/-- C6 counterexample: resizing a session of width 3 and bar position 1
to width 2 gives bar position 1 * 2 / 3 = 0 by the code's truncating
division, while the claimed rounding formula gives round (2 / 3) = 1. -/
theorem C6_counterexample :
    ((onResize (freshSession 3 1 1) 2 1).bar_x : Int) ≠ specBarResize 1 3 2 := by
  have h1 : (onResize (freshSession 3 1 1) 2 1).bar_x = 0 := rfl
  have h2 : specBarResize 1 3 2 = 1 := by
    unfold specBarResize
    norm_num [round_eq]
  rw [h1, h2]
  decide

/-- C6 (amended): after a dimension change of an active session, every
age is 0 and every mask bit unset at the new dimensions, and the new
bar position is old_pos * new_width / old_width in truncating
(floor) integer division. -/
theorem C6_resize_floor (s : Session) (w h x y : Nat) :
    (onResize s w h).width = w ∧ (onResize s w h).height = h ∧
    (onResize s w h).ages x y = 0 ∧ (onResize s w h).mask x y = false ∧
    (onResize s w h).bar_x = s.bar_x * w / s.width :=
  ⟨rfl, rfl, rfl, rfl, rfl⟩

/-- C7: the animation tick sets the bar position to (old position +
increment) mod width, which is never negative and, for a positive
width, always below the width. -/
theorem C7_bar_advance (s : Session) (hw : 0 < s.width) :
    (on_draw_timer s).bar_x = (s.bar_x + BAR_PIXEL_INCREMENT) % s.width ∧
    0 ≤ ((on_draw_timer s).bar_x : Int) ∧
    (on_draw_timer s).bar_x < s.width :=
  ⟨rfl, Int.natCast_nonneg _, Nat.mod_lt _ hw⟩

/-- C7 witness: width 100, bar position 95: the tick wraps to 5. -/
theorem C7_bar_advance_witness :
    (on_draw_timer (freshSession 100 10 95)).bar_x =
      ((freshSession 100 10 95).bar_x + BAR_PIXEL_INCREMENT) %
        (freshSession 100 10 95).width ∧
    0 ≤ ((on_draw_timer (freshSession 100 10 95)).bar_x : Int) ∧
    (on_draw_timer (freshSession 100 10 95)).bar_x < (freshSession 100 10 95).width :=
  C7_bar_advance (freshSession 100 10 95) (by decide)

/-- C8: clearing the same disk twice leaves the age map and mask as
after clearing it once; after one clear, every in-bounds pixel inside
the disk has age 0 and mask unset; every pixel strictly outside the
disk keeps its age and mask bit. -/
theorem C8_clear_idempotent_frame (cx cy r : Int) (s : Session) (x y : Nat) :
    ((clear_arc cx cy r (clear_arc cx cy r s)).ages x y =
      (clear_arc cx cy r s).ages x y) ∧
    ((clear_arc cx cy r (clear_arc cx cy r s)).mask x y =
      (clear_arc cx cy r s).mask x y) ∧
    (x < s.width → y < s.height → inCircle cx cy r x y = true →
      (clear_arc cx cy r s).ages x y = 0 ∧ (clear_arc cx cy r s).mask x y = false) ∧
    (inCircle cx cy r x y = false →
      (clear_arc cx cy r s).ages x y = s.ages x y ∧
      (clear_arc cx cy r s).mask x y = s.mask x y) := by
  refine ⟨?_, ?_, ?_, ?_⟩
  · by_cases h : x < s.width ∧ y < s.height ∧ inCircle cx cy r x y
    · simp [clear_arc, h]
    · simp [clear_arc, h]
  · by_cases h : x < s.width ∧ y < s.height ∧ inCircle cx cy r x y
    · simp [clear_arc, h]
    · simp [clear_arc, h]
  · intro hx hy hc
    simp [clear_arc, hx, hy, hc]
  · intro hc
    simp [clear_arc, hc]

/-- C8 witness: a disk of radius 2 at the origin on a 4 by 4 session
with ages 7 and mask set: pixel (0, 0) lies inside and is cleared
idempotently, pixel (3, 3) lies strictly outside and is untouched. -/
theorem C8_clear_idempotent_frame_witness :
    ((clear_arc 0 0 2 (clear_arc 0 0 2 clearDemo)).ages 0 0 =
      (clear_arc 0 0 2 clearDemo).ages 0 0) ∧
    ((clear_arc 0 0 2 (clear_arc 0 0 2 clearDemo)).mask 3 3 =
      (clear_arc 0 0 2 clearDemo).mask 3 3) ∧
    ((clear_arc 0 0 2 clearDemo).ages 0 0 = 0 ∧
      (clear_arc 0 0 2 clearDemo).mask 0 0 = false) ∧
    ((clear_arc 0 0 2 clearDemo).ages 3 3 = clearDemo.ages 3 3 ∧
      (clear_arc 0 0 2 clearDemo).mask 3 3 = clearDemo.mask 3 3) :=
  ⟨(C8_clear_idempotent_frame 0 0 2 clearDemo 0 0).1,
   (C8_clear_idempotent_frame 0 0 2 clearDemo 3 3).2.1,
   (C8_clear_idempotent_frame 0 0 2 clearDemo 0 0).2.2.1
     (by decide) (by decide) (by decide),
   (C8_clear_idempotent_frame 0 0 2 clearDemo 3 3).2.2.2 (by decide)⟩

/-- C9: the masked-implies-age-zero invariant holds on a fresh session
and after a resize, and is preserved by every diff tick and every
pointer clear. -/
theorem C9_mask_age_invariant (thr maxAge : Nat) (cap : Nat → Nat → Nat)
    (cx cy r : Int) (w h b : Nat) (s : Session) (hinv : maskAgeInv s) :
    maskAgeInv (freshSession w h b) ∧ maskAgeInv (onResize s w h) ∧
    maskAgeInv (diffTick thr maxAge cap s) ∧ maskAgeInv (clear_arc cx cy r s) := by
  refine ⟨?_, ?_, ?_, ?_⟩
  · intro x y hxy
    simp [freshSession] at hxy
  · intro x y hxy
    simp [onResize, freshSession] at hxy
  · intro x y hxy
    simp only [diffTick] at hxy ⊢
    by_cases hb : x < s.width ∧ y < s.height
    · simp only [if_pos hb] at hxy ⊢
      by_cases hm : s.mask x y
      · simp [diffPixel, hm, hinv _ _ hm]
      · by_cases hd : different thr (cap x y) (s.lastCapture x y)
        · simp [diffPixel, hm, hd] at hxy
        · by_cases hp : maxAge ≤ (s.ages x y + 1) % 256
          · simp [diffPixel, hm, hd, hp]
          · simp [diffPixel, hm, hd, hp] at hxy
    · simp only [if_neg hb] at hxy ⊢
      exact hinv _ _ hxy
  · intro x y hxy
    simp only [clear_arc] at hxy ⊢
    by_cases hb : x < s.width ∧ y < s.height ∧ inCircle cx cy r x y
    · simp [hb]
    · simp only [if_neg hb] at hxy ⊢
      exact hinv _ _ hxy

/-- C9 witness: the invariant instantiated on a fresh 4 by 4 session
with a still capture and a disk of radius 2 at the origin. -/
theorem C9_mask_age_invariant_witness :
    maskAgeInv (freshSession 4 4 0) ∧
    maskAgeInv (onResize (freshSession 4 4 0) 4 4) ∧
    maskAgeInv (diffTick 2 150 (fun _ _ => 0) (freshSession 4 4 0)) ∧
    maskAgeInv (clear_arc 0 0 2 (freshSession 4 4 0)) :=
  C9_mask_age_invariant 2 150 (fun _ _ => 0) 0 0 2 4 4 0 (freshSession 4 4 0)
    (by intro x y hxy; simp [freshSession] at hxy)

/-- C10: when the session is not yet initialized, both the capture tick
handler and the pointer-poll handler return at once with the daemon
state unchanged and the keep-the-timer flag TRUE. -/
theorem C10_uninit_guard (thr maxAge : Nat) (cap : Nat → Nat → Nat) (x y : Int)
    (d : data_t) (h : d.initialized = false) :
    on_screen_capture_timer thr maxAge cap d = (d, true) ∧
    on_mouse_poll_timer x y d = (d, true) := by
  constructor
  · simp [on_screen_capture_timer, h]
  · simp [on_mouse_poll_timer, h]

/-- C10 witness: an uninitialized daemon state is untouched by both
handlers. -/
theorem C10_uninit_guard_witness :
    on_screen_capture_timer 2 150 (fun _ _ => 0) uninitDemo = (uninitDemo, true) ∧
    on_mouse_poll_timer 0 0 uninitDemo = (uninitDemo, true) :=
  C10_uninit_guard 2 150 (fun _ _ => 0) 0 0 uninitDemo rfl

end Plasmasaver
